import Mathlib

/-!
Verification development for the `lume-bmad` repository.

The repository maps accelerator control-system variables onto a Bmad lattice
model driven through the Tao engine.  It contains two revisions of the same
design: the current package `lume_bmad` (`lume_bmad/utils.py`,
`lume_bmad/model.py`, `lume_bmad/transformer.py`) and a legacy revision
(`BmadModel.py`, `bmad_model_utils.py`).

This file shallowly embeds the Python code:
* Python dicts become association lists with Python's insertion semantics
  (`dictGet`, `dictInsert`, `dictUpdateAll`, `pyDictOfList`);
* Python string primitives used by the source (`str.replace`, `str.split(" ")`,
  `str.upper`, `str.endswith`, `in`) become the executable `pyReplace`,
  `pySplitSpace`, `pyUpper`, `endsWithUnderscore`, `pyContains`;
* the external Tao engine becomes the explicit state `Tao`: a table of generic
  element attributes, an abstract per-command validity oracle (the engine is
  the sole authority on command validity), the lattice element list, the
  per-attribute `lat_list` query results, the global `lattice_calc_on` flag
  and a log of every directive issued, so that command traces can be stated;
* machine floats become `ℚ` (the unit conversions involved are exact in the
  rationals, so "within floating-point tolerance" claims are settled exactly);
* Python exceptions become `Except` values; mutation of `self` is threaded
  explicitly, and an escaping exception carries the mutated state, so that
  claims about what a failed call leaves behind can be stated.
-/

/-! ## Python dictionary model -/

/-- Lookup in an association list (Python `d[k]` returning `None`ness via
`Option`; callers map a `none` to `KeyError`). -/
def dictGet {α : Type} (d : List (String × α)) (k : String) : Option α :=
  match d with
  | [] => none
  | (k', v) :: rest => if k' = k then some v else dictGet rest k

/-- Python `d[k] = v`: an existing key keeps its position and gets the new
value, a new key is appended at the end (insertion order semantics). -/
def dictInsert {α : Type} (d : List (String × α)) (k : String) (v : α) :
    List (String × α) :=
  match d with
  | [] => [(k, v)]
  | (k', v') :: rest =>
    if k' = k then (k', v) :: rest else (k', v') :: dictInsert rest k v

/-- Python `d.update(es)`: insert every pair of `es` in order. -/
def dictUpdateAll {α : Type} (d : List (String × α)) (es : List (String × α)) :
    List (String × α) :=
  es.foldl (fun acc kv => dictInsert acc kv.1 kv.2) d

/-- Building a Python dict from a sequence of key/value pairs (as
`yaml.safe_load` does for a YAML mapping, silently collapsing duplicate keys:
the last value wins, the first position is kept). -/
def pyDictOfList {α : Type} (es : List (String × α)) : List (String × α) :=
  dictUpdateAll [] es

/-- The key sequence of a Python dict built from possibly-duplicated keys:
first occurrence order, duplicates dropped. -/
def pyKeyDedup (l : List String) : List String :=
  l.foldl (fun acc k => if acc.contains k then acc else acc ++ [k]) []

/-! ## Python string primitives used by the source -/

/-- Fuel-driven core of Python's `str.replace`: replace every leftmost
non-overlapping occurrence of `pat` (assumed nonempty in all uses) by `repl`.
The fuel is the length of the scanned list, which suffices because every step
consumes at least one character. -/
def replaceListFuel (pat repl : List Char) : Nat → List Char → List Char
  | _, [] => []
  | 0, l => l
  | fuel + 1, c :: cs =>
    if pat.isPrefixOf (c :: cs) then
      match pat with
      | [] => c :: cs
      | _ :: pt => repl ++ replaceListFuel pat repl fuel (cs.drop pt.length)
    else c :: replaceListFuel pat repl fuel cs

/-- Python `s.replace(pat, repl)`. -/
def pyReplace (s pat repl : String) : String :=
  ⟨replaceListFuel pat.data repl.data s.data.length s.data⟩

/-- Split a character list at every occurrence of `c`
(Python `str.split(c)` semantics: `n` separators yield `n+1` pieces). -/
def splitOnCharList (c : Char) : List Char → List (List Char)
  | [] => [[]]
  | x :: xs =>
    let r := splitOnCharList c xs
    if x = c then [] :: r
    else
      match r with
      | [] => [[x]]
      | y :: ys => (x :: y) :: ys

/-- Python `s.split(" ")`. -/
def pySplitSpace (s : String) : List String :=
  (splitOnCharList ' ' s.data).map String.mk

/-- Python `s.split("_")` (used by the legacy klystron rewrite). -/
def pySplitUnderscore (s : String) : List String :=
  (splitOnCharList '_' s.data).map String.mk

/-- Python `s.upper()`; also models Tao's uppercase general-attribute keys. -/
def pyUpper (s : String) : String :=
  ⟨s.data.map Char.toUpper⟩

/-- Python `s.endswith("_")`. -/
def endsWithUnderscore (s : String) : Bool :=
  s.data.getLast? == some '_'

/-- Python `sub in s` (substring containment). -/
def pyContains (s sub : String) : Bool :=
  decide (sub.data <:+: s.data)

/-! ## Values and errors -/

/-- A Python scalar as it appears in the state cache: Tao returns numbers for
twiss/rmat quantities and strings for `ele.name`. -/
inductive PyVal : Type
  | num (q : ℚ)
  | str (s : String)
deriving DecidableEq, Repr

/-- The Python exceptions raised by the embedded code.  `lookupError` covers
`KeyError` (a subclass of `LookupError`), `valueError` covers failed unpacking
of `split` results, `engineError` is a command rejected by Tao, and
`nameError` is an undefined Python name. -/
inductive BmadError : Type
  | lookupError (key : String)
  | valueError (s : String)
  | engineError (cmd : String)
  | nameError (name : String)
deriving DecidableEq, Repr

/-- `lume.variables.ScalarVariable` as used by this repository. -/
structure ScalarVariable where
  name : String
  unit : String
  read_only : Bool
  value_range : Option (ℚ × ℚ) := none
deriving DecidableEq, Repr

/-- A parsed `set ele <element> <attribute> = <value>` Tao directive.  The
source builds these as f-strings; `renderCmd` recovers the string form. -/
structure SetCmd where
  element : String
  attr : String
  value : ℚ
deriving DecidableEq, Repr

/-- The command string `f"set ele {element} {attr} = {bmad_value}"` built in
`SLAC2BmadTransformer.get_tao_commands`. -/
def renderCmd (c : SetCmd) : String :=
  "set ele " ++ c.element ++ " " ++ c.attr ++ " = " ++ toString c.value

/-! ## The Tao engine model -/

/-- The external Tao engine (pytao), modelled explicitly: `gen_attribs` is the
`ele_gen_attribs` table (uppercase attribute keys), `valid` is the engine's
authority on per-command validity, `elements` is the lattice element name list
(`lat_list("*", "ele.name")`), `lat_vals` the per-attribute
`lat_list("*", k)` query results, `lattice_calc_on` the global recompute flag,
and `log` the sequence of directives issued so far. -/
structure Tao where
  gen_attribs : String → String → ℚ
  valid : SetCmd → Bool
  elements : List String
  lat_vals : String → List PyVal
  lattice_calc_on : Bool
  log : List String

/-- `tao.lat_list("*", k)`: the `ele.name` column is the element-name list
itself; other columns come from the engine's value table. -/
def Tao.lat_list (t : Tao) (k : String) : List PyVal :=
  if k = "ele.name" then t.elements.map PyVal.str else t.lat_vals k

/-- The engine accepting one `set ele` directive: the element's attribute
(keyed in uppercase, as in `ele_gen_attribs`) takes the new value and the
directive is logged. -/
def Tao.applySet (t : Tao) (c : SetCmd) : Tao :=
  { t with
    gen_attribs := fun e a =>
      if e = c.element ∧ a = pyUpper c.attr then c.value else t.gen_attribs e a
    log := t.log ++ [renderCmd c] }

/-- `tao.cmd("set global lattice_calc_on = ...")`. -/
def setGlobalCalc (t : Tao) (b : Bool) : Tao :=
  { t with
    lattice_calc_on := b
    log := t.log ++
      [if b then "set global lattice_calc_on = T"
       else "set global lattice_calc_on = F"] }

/-- `tao.cmds(...)` on parsed set-commands: each command is checked by the
engine; an invalid one raises, carrying the engine state at the raise (the
rejected directive is logged, nothing is applied for it, and no later command
runs). -/
def Tao.runCmds (t : Tao) : List SetCmd → Except (BmadError × Tao) Tao
  | [] => .ok t
  | c :: rest =>
    if t.valid c then (t.applySet c).runCmds rest
    else .error (.engineError (renderCmd c), { t with log := t.log ++ [renderCmd c] })

/-! ## `lume_bmad.utils` -/

/-- `TAO_OUTPUT_UNITS` from `lume_bmad/utils.py` (identical to
`tao_output_units` in `bmad_model_utils.py`). -/
def TAO_OUTPUT_UNITS : List (String × String) :=
  [("ele.name", ""), ("ele.ix_ele", ""), ("ele.ix_branch", ""),
   ("ele.a.beta", "m"), ("ele.a.alpha", ""), ("ele.a.eta", "m"),
   ("ele.a.etap", ""), ("ele.a.gamma", "1/m"), ("ele.a.phi", ""),
   ("ele.b.beta", "m"), ("ele.b.alpha", ""), ("ele.b.eta", "m"),
   ("ele.b.etap", ""), ("ele.b.gamma", "1/m"), ("ele.b.phi", ""),
   ("ele.x.eta", "m"), ("ele.x.etap", ""), ("ele.y.eta", "m"),
   ("ele.y.etap", ""), ("ele.s", "m"), ("ele.l", "m"),
   ("ele.e_tot", "eV"), ("ele.p0c", "eV"), ("ele.mat6", ""),
   ("ele.vec0", "m")]

/-- `TAO_OUTPUT_UNITS.keys()`. -/
def TAO_OUTPUT_KEYS : List String :=
  TAO_OUTPUT_UNITS.map Prod.fst

/-- The attribute suffix computed by `import_output_variables`:
`attr.replace("ele", "").replace(".", "_")`. -/
def catSfx (attr : String) : String :=
  pyReplace (pyReplace attr "ele" "") "." "_"

/-- The output-variable name composed by `import_output_variables`
(`lume_bmad/utils.py` line 113-114): `ele + attr-suffix + "_"`. -/
def catalogOutputName (ele attr : String) : String :=
  ele ++ catSfx attr ++ "_"

/-- The output key composed by `get_tao_lat_list_outputs`
(`lume_bmad/utils.py` line 241):
`ele + k.replace("ele.", "").replace(".", "_") + "_"`. -/
def latListOutputName (ele k : String) : String :=
  ele ++ pyReplace (pyReplace k "ele." "") "." "_" ++ "_"

/-- The name composition described by the spec's words, for comparison with
`catalogOutputName`: "stripping only the leading 'ele' namespace token from
attr, replacing the '.' separator characters with '_', prefixing the element
name, and appending a trailing '_' delimiter". -/
def specCatalogOutputName (ele attr : String) : String :=
  ele ++
    pyReplace (if List.isPrefixOf "ele".data attr.data then ⟨attr.data.drop 3⟩ else attr)
      "." "_" ++ "_"

/-- One `quad` record of the control-variable YAML file. -/
structure QuadRecord where
  pvname : String
  bmad_name : String
  bmad_attribute : String
  min_value : ℚ
  max_value : ℚ

/-- `import_control_variables`: derive the control-variable dict and the
`control_name_to_bmad` mapping (`" ".join([bmad_name, bmad_attribute])`) from
the declared quad records. -/
def import_control_variables (quads : List QuadRecord) :
    List (String × ScalarVariable) × List (String × String) :=
  quads.foldl
    (fun acc q =>
      (dictInsert acc.1 q.pvname
        ⟨q.pvname, "kG", false, some (q.min_value, q.max_value)⟩,
       dictInsert acc.2 q.pvname (q.bmad_name ++ " " ++ q.bmad_attribute)))
    ([], [])

/-- Inner loop of `import_output_variables`: one element's attribute list.
The unit lookup `TAO_OUTPUT_UNITS[attr]` raises `KeyError` for an unknown
attribute (evaluated before the dict store, so nothing is inserted then). -/
def iovInner (ele : String) (out : List (String × ScalarVariable)) :
    List String → Except BmadError (List (String × ScalarVariable))
  | [] => .ok out
  | attr :: rest =>
    match dictGet TAO_OUTPUT_UNITS attr with
    | none => .error (.lookupError attr)
    | some u =>
      let name := catalogOutputName ele attr
      iovInner ele (dictInsert out name ⟨name, u, true, none⟩) rest

/-- Outer loop of `import_output_variables` over the declared elements. -/
def iovOuter (out : List (String × ScalarVariable)) :
    List (String × List String) → Except BmadError (List (String × ScalarVariable))
  | [] => .ok out
  | (ele, attrs) :: rest =>
    match iovInner ele out (pyKeyDedup attrs) with
    | .error e => .error e
    | .ok out' => iovOuter out' rest

/-- `import_output_variables` (`lume_bmad/utils.py`).  The argument is the
content of the output-variable YAML file as a sequence of
element-name/attribute-list declarations; `yaml.safe_load` builds nested
dicts from it (duplicate keys silently collapse, last value wins), then the
double loop derives one read-only `ScalarVariable` per element/attribute. -/
def import_output_variables (output_variables : List (String × List String)) :
    Except BmadError (List (String × ScalarVariable)) :=
  iovOuter [] (pyDictOfList output_variables)

/-- `s.split(" ")` destructured into exactly an element and an attribute
(`element, attr = ....split(" ")`); any other shape raises `ValueError`. -/
def splitEleAttr (s : String) : Except BmadError (String × String) :=
  match pySplitSpace s with
  | [e, a] => .ok (e, a)
  | _ => .error (.valueError s)

/-- `SLAC2BmadTransformer.get_tao_property`: map the control name through
`control_name_to_bmad` (a missing name raises `KeyError`), query the element's
generic attributes, and for `b1_gradient` convert Bmad units to EPICS units as
`B1_GRADIENT * L * 10`; other attributes are returned unchanged. -/
def get_tao_property (tao : Tao) (control_name_to_bmad : List (String × String))
    (control_name : String) : Except BmadError ℚ :=
  match dictGet control_name_to_bmad control_name with
  | none => .error (.lookupError control_name)
  | some s =>
    match splitEleAttr s with
    | .error e => .error e
    | .ok (element, attr) =>
      if attr = "b1_gradient" then
        .ok (tao.gen_attribs element "B1_GRADIENT" * tao.gen_attribs element "L" * 10)
      else
        .ok (tao.gen_attribs element attr)

/-- `SLAC2BmadTransformer.get_tao_commands`: one `set ele` command per
(name, value) pair in input order; for `b1_gradient` the value is converted
from EPICS to Bmad units as `value / (L * 10)` with `L` re-queried from the
engine.  A name missing from the mapping raises `KeyError` and discards the
whole batch.  `beam_path` is accepted and unused, as in the source. -/
def get_tao_commands (tao : Tao) (control_name_to_bmad : List (String × String))
    (pvdata : List (String × ℚ)) (beam_path : String) :
    Except BmadError (List SetCmd) :=
  match pvdata with
  | [] => .ok []
  | (name, value) :: rest =>
    match dictGet control_name_to_bmad name with
    | none => .error (.lookupError name)
    | some s =>
      match splitEleAttr s with
      | .error e => .error e
      | .ok (element, attr) =>
        let bmad_value :=
          if attr = "b1_gradient" then value / (tao.gen_attribs element "L" * 10)
          else value
        match get_tao_commands tao control_name_to_bmad rest beam_path with
        | .error e => .error e
        | .ok cmds => .ok (⟨element, attr, bmad_value⟩ :: cmds)

/-- `evaluate_tao` (`lume_bmad/utils.py`): disable the global lattice
computation, run the commands, re-enable it.  Nothing is retrieved from the
engine: the result is only the engine state.  A command the engine rejects
raises before the re-enable step. -/
def evaluate_tao (tao : Tao) (tao_cmds : List SetCmd) :
    Except (BmadError × Tao) Tao :=
  match (setGlobalCalc tao false).runCmds tao_cmds with
  | .error e => .error e
  | .ok t2 => .ok (setGlobalCalc t2 true)

/-- `get_tao_lat_list_outputs` (`lume_bmad/utils.py`): for every tracked
attribute, zip the per-element values against the element names and store them
under `ele + k.replace("ele.", "").replace(".", "_") + "_"`. -/
def get_tao_lat_list_outputs (tao : Tao) : List (String × PyVal) :=
  TAO_OUTPUT_KEYS.foldl
    (fun outputs k =>
      dictUpdateAll outputs
        ((tao.elements.zip (tao.lat_list k)).map
          (fun p => (latListOutputName p.1 k, p.2))))
    []

/-! ## `lume_bmad.model` -/

/-- `LUMEBmadModel`: the engine handle, the control-name mapping (the
`SLAC2BmadTransformer` is this mapping), the state cache, and the snapshot of
the state taken at the end of `__init__` (`self._initial_state`).
The `__init__` of the source has the `Tao(...)` construction commented out
while the methods still reference `self.tao`; the embedding therefore carries
the engine handle the methods use as an explicit field. -/
structure LUMEBmadModel where
  tao : Tao
  control_name_to_bmad : List (String × String)
  state : List (String × PyVal)
  initial_state : List (String × ℚ)

/-- `LUMEBmadModel.__init__` given the engine and the parsed control file:
`self._state = {}`, the `self.update_state()` call is commented out in the
source, and `self._initial_state = self._state.copy()` — so the snapshot is
the empty dict. -/
def model_init (tao : Tao) (control_name_to_bmad : List (String × String)) :
    LUMEBmadModel :=
  ⟨tao, control_name_to_bmad, [], []⟩

/-- The control-variable read loop of `LUMEBmadModel.update_state`: write
`get_tao_property` of every control name into the state, one by one; an
exception escaping mid-loop leaves the earlier writes in place. -/
def updateControls (M : LUMEBmadModel) :
    List String → Except (BmadError × LUMEBmadModel) LUMEBmadModel
  | [] => .ok M
  | n :: rest =>
    match get_tao_property M.tao M.control_name_to_bmad n with
    | .error e => .error (e, M)
    | .ok v =>
      updateControls { M with state := dictInsert M.state n (PyVal.num v) } rest

/-- `LUMEBmadModel.update_state`: refresh every control variable through the
transformer, then `self._state.update(get_tao_lat_list_outputs(self.tao))`.
The control names are the keys of the control-variable dict, which
`import_control_variables` builds with the same keys as the mapping. -/
def update_state (M : LUMEBmadModel) :
    Except (BmadError × LUMEBmadModel) LUMEBmadModel :=
  match updateControls M (M.control_name_to_bmad.map Prod.fst) with
  | .error e => .error e
  | .ok M' =>
    .ok { M' with state := dictUpdateAll M'.state (get_tao_lat_list_outputs M'.tao) }

/-- `LUMEBmadModel._set`: build the command batch, evaluate it, then refresh
the cache.  An exception from building or evaluating escapes before any state
write; the state only changes inside the final `update_state`. -/
def model_set (M : LUMEBmadModel) (values : List (String × ℚ)) :
    Except (BmadError × LUMEBmadModel) LUMEBmadModel :=
  match get_tao_commands M.tao M.control_name_to_bmad values "cu_hxr" with
  | .error e => .error (e, M)
  | .ok tao_cmds =>
    match evaluate_tao M.tao tao_cmds with
    | .error (e, t') => .error (e, { M with tao := t' })
    | .ok t' => update_state { M with tao := t' }

/-- `LUMEBmadModel._get`: pure cache read; a name never initialized raises
`KeyError`. -/
def model_get (M : LUMEBmadModel) (names : List String) :
    Except BmadError (List (String × PyVal)) :=
  match names with
  | [] => .ok []
  | n :: rest =>
    match dictGet M.state n with
    | none => .error (.lookupError n)
    | some v =>
      match model_get M rest with
      | .error e => .error e
      | .ok out => .ok ((n, v) :: out)

/-- `LUMEBmadModel.reset`: `self.set(self._initial_state)`.  The public
`set` wrapper inherited from the external `lume.model.LUMEModel` is modelled
as delegating to `_set` (the snapshot contains only control names, so
validation is not exercised). -/
def model_reset (M : LUMEBmadModel) :
    Except (BmadError × LUMEBmadModel) LUMEBmadModel :=
  model_set M M.initial_state

/-! ## Legacy revision: `bmad_model_utils.py` and `BmadModel.py` -/

/-- One entry of `lcls_live.datamaps.get_datamaps(beam_path)` (external):
the accelerate PV name used for the skip test and the `as_tao` renderer,
kept abstract. -/
structure DataMap where
  accelerate_pvname : String
  as_tao : List (String × PyVal) → List String

/-- The `mdl_obj` object referenced by `bmad_model_utils.get_tao_cmds`.  The
name is not defined anywhere in the module (nor imported), so looking it up
raises `NameError`; the embedding makes the unbound name an `Option` that is
`none`. -/
structure MdlObj where
  data_source : String
  beam_code : Nat

/-- The module-level binding of the name `mdl_obj` in `bmad_model_utils.py`:
there is none. -/
def mdl_obj : Option MdlObj := none

/-- One iteration of the datamap loop in `get_tao_cmds`, accumulating
`(lines_quads, lines_rf)`.  A `K...` map with an empty accelerate PV is
skipped (`continue`); a `K...` map appends to the RF lines; the `cavities`
map *replaces* the RF lines; the `quad` map appends to the quad lines. -/
def gtcStep (pvdata : List (String × PyVal)) (acc : List String × List String)
    (kv : String × DataMap) : List String × List String :=
  if List.isPrefixOf "K".data kv.1.data ∧ kv.2.accelerate_pvname = "" then acc
  else
    let lines_rf := if List.isPrefixOf "K".data kv.1.data
      then acc.2 ++ kv.2.as_tao pvdata else acc.2
    let lines_rf := if kv.1 = "cavities" then kv.2.as_tao pvdata else lines_rf
    let lines_quads := if kv.1 = "quad"
      then acc.1 ++ kv.2.as_tao pvdata else acc.1
    (lines_quads, lines_rf)

/-- Python `str(v)` for the values stored in `pvdata`. -/
def pyStr : PyVal → String
  | .num q => toString q
  | .str s => s

/-- The dead klystron status rewrite of one RF command inside
`get_tao_cmds` (lines 68-81): `K21_1`/`K21_2` stay as computed; otherwise the
element is split into sector/station, the status PV (whose name, due to the
source's dangling second f-string line, lacks the `BEAMCODE..._STAT` part) is
looked up in `pvdata` and spliced in as the last command word. -/
def rewriteCmd (pvdata : List (String × PyVal)) (cmd : String) :
    Except BmadError String :=
  if pyContains cmd "in_use" then
    if pyContains cmd "K21_1" ∨ pyContains cmd "K21_2" then .ok cmd
    else
      match (pySplitSpace cmd).get? 2 with
      | none => .error (.lookupError cmd)
      | some ele =>
        match pySplitUnderscore ⟨ele.data.drop 1⟩ with
        | [sector, station] =>
          let pv := "KLYS:LI" ++ sector ++ ":" ++ station ++ "1:"
          match dictGet pvdata pv with
          | none => .error (.lookupError pv)
          | some v =>
            let ws := pySplitSpace cmd
            .ok (" ".intercalate (ws.dropLast ++ [pyStr v]))
        | _ => .error (.valueError ele)
  else .ok cmd

/-- The dead `new_lines` loop of `get_tao_cmds`. -/
def rewriteRF (pvdata : List (String × PyVal)) :
    List String → Except BmadError (List String)
  | [] => .ok []
  | cmd :: rest =>
    match rewriteCmd pvdata cmd with
    | .error e => .error e
    | .ok c =>
      match rewriteRF pvdata rest with
      | .error e => .error e
      | .ok cs => .ok (c :: cs)

/-- `bmad_model_utils.get_tao_cmds`: fold the datamaps into RF and quad
command lines, then evaluate the rewrite guard
`"NOT" in mdl_obj.data_source and "cu" in beam_path`.  Evaluating `mdl_obj`
raises `NameError` since the name is unbound; were it bound, the computed
`new_lines` would still be discarded, the return value being
`lines_rf + lines_quads`. -/
def get_tao_cmds (all_data_maps : List (String × DataMap))
    (pvdata : List (String × PyVal)) (beam_path : String) :
    Except BmadError (List String) :=
  let acc := all_data_maps.foldl (gtcStep pvdata) ([], [])
  match mdl_obj with
  | none => .error (.nameError "mdl_obj")
  | some o =>
    if pyContains o.data_source "NOT" ∧ pyContains beam_path "cu" then
      match rewriteRF pvdata acc.2 with
      | .error e => .error e
      | .ok _new_lines => .ok (acc.2 ++ acc.1)
    else .ok (acc.2 ++ acc.1)

/-- `bmad_model_utils.get_bmad_bdes` with no explicit gradient: returns
`-B1_GRADIENT * L * 10` from the element's generic attributes. -/
def get_bmad_bdes (tao : Tao) (element : String) : ℚ :=
  -(tao.gen_attribs element "B1_GRADIENT") * tao.gen_attribs element "L" * 10

/-- `tao.cmds` on raw command strings as the legacy driver issues them: the
directives are logged; their per-string semantics is outside this model. -/
def Tao.runStrCmds (t : Tao) (cs : List String) : Tao :=
  { t with log := t.log ++ cs }

/-- `bmad_model_utils.evaluate_tao`: the same disable/run/re-enable bracket
as the current revision, followed by `output = get_output(tao)` — but
`get_output` is not defined in (or imported into) the module, so the call
raises `NameError` after the bracket, and no output dict is ever returned. -/
def evaluate_tao_legacy (tao : Tao) (tao_cmds : List String) :
    Except (BmadError × Tao) (Tao × List (String × PyVal)) :=
  let t3 := setGlobalCalc ((setGlobalCalc tao false).runStrCmds tao_cmds) true
  .error (.nameError "get_output", t3)

/-- One iteration of the value loop in `BmadModel._set`: non-output names
(those not ending in `_`) are converted back to PV form and collected in
`pvdata`, and — before any command is built — every given value is written
into `self._state`. -/
def bmadSetStep (acc : List (String × PyVal) × List (String × PyVal))
    (nv : String × PyVal) : List (String × PyVal) × List (String × PyVal) :=
  (if endsWithUnderscore nv.1 then acc.1
   else dictInsert acc.1 (pyReplace nv.1 "_" ":") nv.2,
   dictInsert acc.2 nv.1 nv.2)

/-- `BmadModel._set` (legacy `BmadModel.py`): write all given values into the
state, then build the commands (`get_tao_cmds`) and evaluate them
(`evaluate_tao`, whose result would feed the state update).  Any exception
escaping after the loop leaves the already-written values in the state; the
result carries the state as the call leaves it.  The trailing state update is
itself a bare `_update_state(...)` call, an unbound module-level name. -/
def BmadModel_set (all_data_maps : List (String × DataMap)) (tao : Tao)
    (state : List (String × PyVal)) (values : List (String × PyVal)) :
    Except (BmadError × List (String × PyVal)) (List (String × PyVal)) :=
  let acc := values.foldl bmadSetStep ([], state)
  match get_tao_cmds all_data_maps acc.1 "cu_hxr" with
  | .error e => .error (e, acc.2)
  | .ok tao_cmds =>
    match evaluate_tao_legacy tao tao_cmds with
    | .error (e, _) => .error (e, acc.2)
    | .ok _ => .error (.nameError "_update_state", acc.2)

/-! ## Concrete fixtures used by closed theorems and witnesses -/

/-- An engine whose element `Q1` has length `1/10` m (so `L * 10 = 1`), an
empty lattice listing, and which accepts every command. -/
def taoQ : Tao :=
  { gen_attribs := fun e a => if e = "Q1" ∧ a = "L" then 1/10 else 0
    valid := fun _ => true
    elements := []
    lat_vals := fun _ => []
    lattice_calc_on := true
    log := [] }

/-- The same engine but rejecting every command. -/
def taoR : Tao :=
  { taoQ with valid := fun _ => false }

/-- An engine with a single lattice element `Q1` and one row per
`lat_list` column. -/
def taoLat : Tao :=
  { gen_attribs := fun _ _ => 0
    valid := fun _ => true
    elements := ["Q1"]
    lat_vals := fun _ => [.num 0]
    lattice_calc_on := true
    log := [] }

/-- The control file of the spec's scenario: one quad `QUAD:IN20:511` mapped
to element `Q1`, attribute `b1_gradient`, range `[-1, 1]` kG. -/
def quadRecQ : QuadRecord :=
  ⟨"QUAD:IN20:511", "Q1", "b1_gradient", -1, 1⟩

/-- The `control_name_to_bmad` mapping derived from that control file. -/
def cmapQ : List (String × String) :=
  [("QUAD:IN20:511", "Q1 b1_gradient")]

/-- A model over the all-accepting engine with the scenario mapping. -/
def modelQ : LUMEBmadModel :=
  ⟨taoQ, cmapQ, [], []⟩

/-- A model over the all-rejecting engine. -/
def modelR : LUMEBmadModel :=
  ⟨taoR, cmapQ, [], []⟩

/-- A model with an empty control-name mapping. -/
def modelF : LUMEBmadModel :=
  ⟨taoQ, [], [], []⟩

/-- Projection extracting the error of a legacy engine call. -/
def legacyErrName :
    Except (BmadError × Tao) (Tao × List (String × PyVal)) → Option BmadError
  | .error (e, _) => some e
  | .ok _ => none

/-! ## Dictionary lemmas -/

theorem dictGet_insert_self {α : Type} (d : List (String × α)) (k : String) (v : α) :
    dictGet (dictInsert d k v) k = some v := by
  induction d with
  | nil => simp [dictInsert, dictGet]
  | cons p rest ih =>
    by_cases h : p.1 = k
    · simp [dictInsert, dictGet, h]
    · simp [dictInsert, dictGet, h, ih]

theorem dictGet_insert_ne {α : Type} (d : List (String × α)) {k k' : String} (v : α)
    (h : k' ≠ k) : dictGet (dictInsert d k' v) k = dictGet d k := by
  induction d with
  | nil => simp [dictInsert, dictGet, h]
  | cons p rest ih =>
    by_cases hp : p.1 = k'
    · simp [dictInsert, dictGet, hp, h]
    · simp only [dictInsert, hp, if_false, dictGet]
      by_cases hk : p.1 = k <;> simp [hk, ih]

theorem dictGet_updateAll_of_not_mem {α : Type} (es : List (String × α))
    (d : List (String × α)) {k : String} (h : k ∉ es.map Prod.fst) :
    dictGet (dictUpdateAll d es) k = dictGet d k := by
  induction es generalizing d with
  | nil => rfl
  | cons e rest ih =>
    simp only [List.map_cons, List.mem_cons, not_or] at h
    show dictGet (dictUpdateAll (dictInsert d e.1 e.2) rest) k = dictGet d k
    rw [ih _ h.2]
    exact dictGet_insert_ne d e.2 (fun he => h.1 he.symm)

theorem mem_keys_dictInsert {α : Type} {d : List (String × α)} {k k' : String}
    {v : α} (h : k ∈ (dictInsert d k' v).map Prod.fst) :
    k ∈ d.map Prod.fst ∨ k = k' := by
  induction d with
  | nil => simpa [dictInsert] using h
  | cons p rest ih =>
    by_cases hp : p.1 = k'
    · simp only [dictInsert, hp, if_true, List.map_cons, List.mem_cons] at h
      rcases h with h | h
      · exact Or.inr h
      · exact Or.inl (by simp [h])
    · simp only [dictInsert, hp, if_false, List.map_cons, List.mem_cons] at h ⊢
      rcases h with h | h
      · exact Or.inl (Or.inl h)
      · rcases ih h with h2 | h2
        · exact Or.inl (Or.inr h2)
        · exact Or.inr h2

theorem mem_keys_dictUpdateAll {α : Type} {es d : List (String × α)} {k : String}
    (h : k ∈ (dictUpdateAll d es).map Prod.fst) :
    k ∈ d.map Prod.fst ∨ k ∈ es.map Prod.fst := by
  induction es generalizing d with
  | nil => exact Or.inl h
  | cons e rest ih =>
    have h' : k ∈ (dictUpdateAll (dictInsert d e.1 e.2) rest).map Prod.fst := h
    rcases ih h' with h'' | h''
    · rcases mem_keys_dictInsert h'' with h3 | h3
      · exact Or.inl h3
      · exact Or.inr (by simp [h3])
    · exact Or.inr (by simp [h''])

/-! ## String lemmas -/

theorem strData_append (a b : String) : (a ++ b).data = a.data ++ b.data := by
  cases a; cases b; rfl

theorem strData_inj {a b : String} (h : a.data = b.data) : a = b := by
  cases a; cases b; exact congrArg String.mk h

theorem endsWithUnderscore_append (p : String) :
    endsWithUnderscore (p ++ "_") = true := by
  have : (p ++ "_").data = p.data ++ ['_'] := strData_append p "_"
  simp [endsWithUnderscore, this]

/-- Two suffixes of a common list are totally ordered by the suffix
relation; appending to the left cannot disturb the common tail. -/
theorem append_suffix_totality {a b u v : List Char} (h : a ++ u = b ++ v) :
    u <:+ v ∨ v <:+ u := by
  have h1 : u <:+ b ++ v := h ▸ List.suffix_append a u
  exact List.suffix_or_suffix_of_suffix h1 (List.suffix_append b v)

/-! ## Output-key shape lemmas -/

theorem endsWithUnderscore_latListOutputName (e k : String) :
    endsWithUnderscore (latListOutputName e k) = true :=
  endsWithUnderscore_append _

theorem keys_lat_outputs_end (t : Tao) :
    ∀ k ∈ (get_tao_lat_list_outputs t).map Prod.fst, endsWithUnderscore k = true := by
  have aux : ∀ (ks : List String) (acc : List (String × PyVal)),
      (∀ k ∈ acc.map Prod.fst, endsWithUnderscore k = true) →
      ∀ k ∈ ((ks.foldl
        (fun outputs kk =>
          dictUpdateAll outputs
            ((t.elements.zip (t.lat_list kk)).map
              (fun p => (latListOutputName p.1 kk, p.2)))) acc)).map Prod.fst,
        endsWithUnderscore k = true := by
    intro ks
    induction ks with
    | nil => exact fun acc h => h
    | cons kk rest ih =>
      intro acc h
      refine ih _ (fun k hk => ?_)
      rcases mem_keys_dictUpdateAll hk with h1 | h1
      · exact h k h1
      · simp only [List.map_map, List.mem_map] at h1
        obtain ⟨p, -, rfl⟩ := h1
        exact endsWithUnderscore_latListOutputName _ _
  exact aux TAO_OUTPUT_KEYS [] (by simp)

theorem not_mem_lat_outputs_keys {k : String} (t : Tao)
    (h : endsWithUnderscore k = false) :
    k ∉ (get_tao_lat_list_outputs t).map Prod.fst := by
  intro hk
  have := keys_lat_outputs_end t k hk
  rw [h] at this
  exact Bool.false_ne_true this

/-! ## Engine lemmas -/

theorem runCmds_all_valid :
    ∀ (cs : List SetCmd) (t : Tao), (∀ c ∈ cs, t.valid c = true) →
      t.runCmds cs = .ok (cs.foldl Tao.applySet t) := by
  intro cs
  induction cs with
  | nil => intro t _; rfl
  | cons c rest ih =>
    intro t h
    show (if t.valid c = true then (t.applySet c).runCmds rest else _) = _
    rw [if_pos (h c (List.mem_cons_self c rest)), List.foldl_cons]
    exact ih (t.applySet c) (fun c' hc' => h c' (List.mem_cons_of_mem c hc'))

theorem foldl_applySet_log :
    ∀ (cs : List SetCmd) (t : Tao),
      (cs.foldl Tao.applySet t).log = t.log ++ cs.map renderCmd := by
  intro cs
  induction cs with
  | nil => intro t; simp
  | cons c rest ih =>
    intro t
    rw [List.foldl_cons, ih]
    simp [Tao.applySet]

/-! ## Claim theorems

The `Rat` arithmetic operations are `@[irreducible]` in Batteries; the closed
theorems below evaluate the embedded program on concrete rational inputs, so
reduction of these operations is re-enabled for the rest of this file. -/

attribute [local semireducible] Rat.mul Rat.inv Rat.add Rat.sub

/-- C1: the claim states that `get_tao_lat_list_outputs` and
`import_output_variables` compose identical names for the same
element/attribute pair, so that every State key is a Variable Catalog key.
The code contradicts it — and thereby its own stated invariant: for the
lattice element `Q1` the update cycle writes keys such as `Q1a_beta_`
(`"ele.a.beta".replace("ele.", "")` keeps no separator) while the catalog
holds `Q1_a_beta_` (`"ele.a.beta".replace("ele", "")` leaves the dot, which
becomes `_`); in fact not a single cache-refresh output key is a catalog key.
The legacy `BmadModel._update_state` uses the catalog convention, marking the
`get_tao_lat_list_outputs` convention as the slip. -/
theorem c1_lat_list_keys_miss_catalog :
    ∃ cat, import_output_variables [("Q1", TAO_OUTPUT_KEYS)] = .ok cat ∧
      latListOutputName "Q1" "ele.a.beta" = "Q1a_beta_" ∧
      catalogOutputName "Q1" "ele.a.beta" = "Q1_a_beta_" ∧
      "Q1a_beta_" ∈ (get_tao_lat_list_outputs taoLat).map Prod.fst ∧
      "Q1a_beta_" ∉ cat.map Prod.fst ∧
      ((get_tao_lat_list_outputs taoLat).map Prod.fst).all
        (fun k => !((cat.map Prod.fst).contains k)) = true := by
  refine ⟨_, rfl, rfl, rfl, by decide, by decide, by decide⟩

/-- C4 (counterexample): `import_output_variables` does not strip only the
leading `ele` namespace token: for the declared attribute `ele.ix_ele` it
also strips the trailing `ele`, composing `Q1_ix__`, not the `Q1_ix_ele_`
the claim's composition rule yields. -/
theorem c4_strip_leading_counterexample :
    (import_output_variables [("Q1", ["ele.ix_ele"])]).map (fun d => d.map Prod.fst) =
      .ok ["Q1_ix__"] ∧
    specCatalogOutputName "Q1" "ele.ix_ele" = "Q1_ix_ele_" ∧
    ("Q1_ix__" : String) ≠ "Q1_ix_ele_" :=
  ⟨rfl, rfl, by decide⟩

/-- C4 (amended): `import_output_variables` composes the variable name by
replacing every occurrence of the substring `ele` in the attribute (not only
the leading namespace token) with the empty string, then replacing `.` by
`_`, prefixing the element name and appending a trailing `_`; every composed
name ends with that trailing delimiter, and for every attribute of the unit
table other than `ele.ix_ele` the result coincides with stripping only the
leading token. -/
theorem c4_composed_name_amended (ele attr : String) (h : attr ∈ TAO_OUTPUT_KEYS) :
    (∃ p, catalogOutputName ele attr = p ++ "_") ∧
    (attr ≠ "ele.ix_ele" →
      catalogOutputName ele attr = specCatalogOutputName ele attr) := by
  refine ⟨⟨ele ++ catSfx attr, rfl⟩, fun hne => ?_⟩
  simp only [TAO_OUTPUT_KEYS, TAO_OUTPUT_UNITS, List.map_cons, List.map_nil,
    List.mem_cons, List.not_mem_nil, or_false] at h
  rcases h with rfl | rfl | rfl | rfl | rfl | rfl | rfl | rfl | rfl | rfl | rfl |
    rfl | rfl | rfl | rfl | rfl | rfl | rfl | rfl | rfl | rfl | rfl | rfl | rfl | rfl
  all_goals first
    | rfl
    | exact absurd rfl hne

/-- C4 (witness): the amended statement at element `QE` and attribute
`ele.a.beta`. -/
theorem c4_composed_name_amended_witness :
    (∃ p, catalogOutputName "QE" "ele.a.beta" = p ++ "_") ∧
    ("ele.a.beta" ≠ "ele.ix_ele" →
      catalogOutputName "QE" "ele.a.beta" = specCatalogOutputName "QE" "ele.a.beta") :=
  c4_composed_name_amended "QE" "ele.a.beta" (by decide)

/-- C5 (counterexample): a file declaring the same element/attribute record
twice makes two declared records compose the same output name, yet catalog
construction does not fail: the YAML load and the dict store silently
collapse them to a single entry. -/
theorem c5_collision_not_rejected :
    catalogOutputName "Q1" "ele.s" = catalogOutputName "Q1" "ele.s" ∧
    import_output_variables [("Q1", ["ele.s"]), ("Q1", ["ele.s"])] =
      .ok [("Q1_s_", ⟨"Q1_s_", "m", true, none⟩)] :=
  ⟨rfl, rfl⟩

/-- The composed catalog suffixes (with the trailing delimiter) of the unit
table are pairwise non-suffixes of each other, so a shared composed suffix
forces equal attributes. -/
theorem catSfx_suffix_inj : ∀ a1 ∈ TAO_OUTPUT_KEYS, ∀ a2 ∈ TAO_OUTPUT_KEYS,
    ((catSfx a1).data ++ ['_'] <:+ (catSfx a2).data ++ ['_']) → a1 = a2 := by
  decide

/-- C5 (amended): distinct element/attribute pairs whose attributes are in
the unit table never compose the same output-variable name, so catalog
construction never meets a collision it would need to reject; a collision can
only arise from repeating the identical record, which is silently collapsed
to one entry (last wins) rather than rejected. -/
theorem c5_distinct_records_never_collide (e1 a1 e2 a2 : String)
    (h1 : a1 ∈ TAO_OUTPUT_KEYS) (h2 : a2 ∈ TAO_OUTPUT_KEYS)
    (heq : catalogOutputName e1 a1 = catalogOutputName e2 a2) :
    e1 = e2 ∧ a1 = a2 := by
  have hd : e1.data ++ ((catSfx a1).data ++ ['_']) =
      e2.data ++ ((catSfx a2).data ++ ['_']) := by
    have h := congrArg String.data heq
    simp only [catalogOutputName, strData_append] at h
    simpa [List.append_assoc] using h
  have ha : a1 = a2 := by
    rcases append_suffix_totality hd with h | h
    · exact catSfx_suffix_inj a1 h1 a2 h2 h
    · exact (catSfx_suffix_inj a2 h2 a1 h1 h).symm
  subst ha
  refine ⟨?_, rfl⟩
  have hlen : e1.data.length = e2.data.length := by
    have := congrArg List.length hd
    simp only [List.length_append] at this
    omega
  exact strData_inj (List.append_inj hd hlen).1

/-- C5 (witness): the amended statement applied at two concrete records. -/
theorem c5_distinct_records_never_collide_witness :
    ("Q1" : String) = "Q1" ∧ ("ele.s" : String) = "ele.s" :=
  c5_distinct_records_never_collide "Q1" "ele.s" "Q1" "ele.s"
    (by decide) (by decide) rfl

/-- C9: a control name with no entry in `control_name_to_bmad` makes both
`get_tao_property` and `get_tao_commands` fail with the `KeyError` of the
mapping lookup (a `LookupError`), emitting no value and no command for that
name. -/
theorem c9_unmapped_name_raises_lookup (t : Tao)
    (cmap : List (String × String)) (name : String)
    (h : dictGet cmap name = none) :
    get_tao_property t cmap name = .error (.lookupError name) ∧
    ∀ (v : ℚ) (bp : String),
      get_tao_commands t cmap [(name, v)] bp = .error (.lookupError name) := by
  constructor
  · simp [get_tao_property, h]
  · intro v bp
    simp [get_tao_commands, h]

/-- C9 (witness): the unmapped name `BOGUS` against an empty mapping. -/
theorem c9_unmapped_name_raises_lookup_witness :
    get_tao_property taoQ [] "BOGUS" = .error (.lookupError "BOGUS") ∧
    get_tao_commands taoQ [] [("BOGUS", 1)] "cu_hxr" = .error (.lookupError "BOGUS") :=
  ⟨(c9_unmapped_name_raises_lookup taoQ [] "BOGUS" rfl).1,
   (c9_unmapped_name_raises_lookup taoQ [] "BOGUS" rfl).2 1 "cu_hxr"⟩

/-- C10: for every datamap set, pvdata mapping and beam path, once the
datamap loop has completed, `bmad_model_utils.get_tao_cmds` raises `NameError`
evaluating its rewrite guard, which references the unbound module name
`mdl_obj`; the success path `return lines_rf + lines_quads` is unreachable
(and even on it, the rewritten `new_lines` list is discarded, never
influencing a returned value). -/
theorem c10_get_tao_cmds_always_name_error :
    ∀ (dms : List (String × DataMap)) (pvdata : List (String × PyVal))
      (bp : String), get_tao_cmds dms pvdata bp = .error (.nameError "mdl_obj") :=
  fun _ _ _ => rfl

/-! ## Helper lemmas for the transformer round-trip claims -/

theorem applySet_gen_attribs (t : Tao) (c : SetCmd) (e a : String) :
    (t.applySet c).gen_attribs e a =
      if e = c.element ∧ a = pyUpper c.attr then c.value else t.gen_attribs e a := rfl

theorem setGlobalCalc_gen (t : Tao) (b : Bool) :
    (setGlobalCalc t b).gen_attribs = t.gen_attribs := rfl

/-- Reading back a `b1_gradient` control through `get_tao_property` multiplies
the element's gradient and length and the factor 10. -/
theorem get_tao_property_b1 (t : Tao) (cmap : List (String × String))
    (name E s : String) (g L : ℚ)
    (hm : dictGet cmap name = some s) (hs : splitEleAttr s = .ok (E, "b1_gradient"))
    (hB : t.gen_attribs E "B1_GRADIENT" = g) (hL : t.gen_attribs E "L" = L) :
    get_tao_property t cmap name = .ok (g * L * 10) := by
  simp only [get_tao_property, hm, hs]
  rw [if_pos trivial, hB, hL]

/-- C3: for every writable variable resolving to a `b1_gradient` attribute,
every control-system value `v` and every nonzero engine-reported length,
building the command applies the inverse conversion `v / (L * 10)`, and once
the engine holds that gradient, reading the property back applies the forward
conversion `gradient * L * 10` and returns exactly `v` (exact in `ℚ`, hence
within any floating-point tolerance). -/
theorem c3_gradient_roundtrip (t : Tao) (cmap : List (String × String))
    (name E bp s : String) (v : ℚ) (hm : dictGet cmap name = some s)
    (hs : splitEleAttr s = .ok (E, "b1_gradient"))
    (hL : t.gen_attribs E "L" ≠ 0) :
    get_tao_commands t cmap [(name, v)] bp =
      .ok [⟨E, "b1_gradient", v / (t.gen_attribs E "L" * 10)⟩] ∧
    get_tao_property (t.applySet ⟨E, "b1_gradient", v / (t.gen_attribs E "L" * 10)⟩)
      cmap name = .ok v := by
  constructor
  · simp [get_tao_commands, hm, hs]
  · rw [get_tao_property_b1 (t.applySet ⟨E, "b1_gradient", v / (t.gen_attribs E "L" * 10)⟩)
      cmap name E s _ (t.gen_attribs E "L") hm hs
      (by rw [applySet_gen_attribs,
        if_pos ⟨rfl, (rfl : ("B1_GRADIENT" : String) = pyUpper "b1_gradient")⟩])
      (by rw [applySet_gen_attribs,
        if_neg (fun hcon => absurd hcon.2
          (show ¬ ("L" : String) = pyUpper "b1_gradient" by decide))])]
    congr 1
    field_simp
    ring

/-- C3 (witness): the round trip at `v = 3/4` on an engine with `L = 1/10`. -/
theorem c3_gradient_roundtrip_witness :
    get_tao_commands taoQ cmapQ [("QUAD:IN20:511", (3/4 : ℚ))] "cu_hxr" =
      .ok [⟨"Q1", "b1_gradient", (3/4 : ℚ) / (taoQ.gen_attribs "Q1" "L" * 10)⟩] ∧
    get_tao_property
      (taoQ.applySet ⟨"Q1", "b1_gradient", (3/4 : ℚ) / (taoQ.gen_attribs "Q1" "L" * 10)⟩)
      cmapQ "QUAD:IN20:511" = .ok (3/4 : ℚ) :=
  c3_gradient_roundtrip taoQ cmapQ "QUAD:IN20:511" "Q1" "cu_hxr" "Q1 b1_gradient"
    (3/4) rfl rfl (by norm_num [taoQ])

/-- C2: for a model whose control file maps `QUAD:IN20:511` to element `Q1`
and attribute `b1_gradient`, `set({"QUAD:IN20:511": 0.5})` produces exactly
one engine command — the set-attribute command for `Q1` with value
`0.5 / (L * 10)` where `L` is Q1's engine-reported length — and a subsequent
`get(["QUAD:IN20:511"])` returns exactly `0.5` (exact in `ℚ`, hence within
tolerance). -/
theorem c2_quad_set_scenario (t : Tao) (st : List (String × PyVal))
    (hL : t.gen_attribs "Q1" "L" ≠ 0)
    (hv : t.valid ⟨"Q1", "b1_gradient", (1/2 : ℚ) / (t.gen_attribs "Q1" "L" * 10)⟩ = true) :
    (import_control_variables [quadRecQ]).2 = cmapQ ∧
    get_tao_commands t cmapQ [("QUAD:IN20:511", (1/2 : ℚ))] "cu_hxr" =
      .ok [⟨"Q1", "b1_gradient", (1/2 : ℚ) / (t.gen_attribs "Q1" "L" * 10)⟩] ∧
    ∃ M', model_set ⟨t, cmapQ, st, []⟩ [("QUAD:IN20:511", (1/2 : ℚ))] = .ok M' ∧
      model_get M' ["QUAD:IN20:511"] = .ok [("QUAD:IN20:511", PyVal.num (1/2))] := by
  refine ⟨rfl, rfl, ?_⟩
  set c : SetCmd := ⟨"Q1", "b1_gradient", (1/2 : ℚ) / (t.gen_attribs "Q1" "L" * 10)⟩ with hc
  have hcmds : get_tao_commands t cmapQ [("QUAD:IN20:511", (1/2 : ℚ))] "cu_hxr" =
      .ok [c] := rfl
  have hv' : (setGlobalCalc t false).valid c = true := hv
  have hev : evaluate_tao t [c] =
      .ok (setGlobalCalc ((setGlobalCalc t false).applySet c) true) := by
    unfold evaluate_tao Tao.runCmds
    rw [if_pos hv']
    rfl
  set t2 : Tao := setGlobalCalc ((setGlobalCalc t false).applySet c) true with ht2
  have hB2 : t2.gen_attribs "Q1" "B1_GRADIENT" = c.value := by
    rw [ht2, setGlobalCalc_gen, applySet_gen_attribs,
      if_pos ⟨rfl, (rfl : ("B1_GRADIENT" : String) = pyUpper "b1_gradient")⟩]
  have hL3 : t2.gen_attribs "Q1" "L" = t.gen_attribs "Q1" "L" := by
    rw [ht2, setGlobalCalc_gen, applySet_gen_attribs,
      if_neg (fun hcon => absurd hcon.2
        (show ¬ ("L" : String) = pyUpper "b1_gradient" by decide)),
      setGlobalCalc_gen]
  have hprop : get_tao_property t2 cmapQ "QUAD:IN20:511" = .ok (1/2 : ℚ) := by
    rw [get_tao_property_b1 t2 cmapQ "QUAD:IN20:511" "Q1" "Q1 b1_gradient"
      c.value (t.gen_attribs "Q1" "L") rfl rfl hB2 hL3]
    congr 1
    show (1/2 : ℚ) / (t.gen_attribs "Q1" "L" * 10) * t.gen_attribs "Q1" "L" * 10 = 1/2
    field_simp
    ring
  have hms : model_set ⟨t, cmapQ, st, []⟩ [("QUAD:IN20:511", (1/2 : ℚ))] =
      .ok ⟨t2, cmapQ,
        dictUpdateAll (dictInsert st "QUAD:IN20:511" (PyVal.num (1/2)))
          (get_tao_lat_list_outputs t2), []⟩ := by
    simp only [model_set, hcmds, hev, update_state, updateControls, hprop]
  refine ⟨_, hms, ?_⟩
  have hget : dictGet (dictUpdateAll (dictInsert st "QUAD:IN20:511" (PyVal.num (1/2)))
      (get_tao_lat_list_outputs t2)) "QUAD:IN20:511" = some (PyVal.num (1/2)) := by
    rw [dictGet_updateAll_of_not_mem _ _ (not_mem_lat_outputs_keys t2 (by decide))]
    exact dictGet_insert_self st "QUAD:IN20:511" _
  simp only [model_get, hget]

/-- C2 (witness): the scenario on the concrete engine `taoQ` (length `1/10`,
all commands accepted) starting from an empty cache. -/
theorem c2_quad_set_scenario_witness :
    (import_control_variables [quadRecQ]).2 = cmapQ ∧
    get_tao_commands taoQ cmapQ [("QUAD:IN20:511", (1/2 : ℚ))] "cu_hxr" =
      .ok [⟨"Q1", "b1_gradient", (1/2 : ℚ) / (taoQ.gen_attribs "Q1" "L" * 10)⟩] ∧
    ∃ M', model_set ⟨taoQ, cmapQ, [], []⟩ [("QUAD:IN20:511", (1/2 : ℚ))] = .ok M' ∧
      model_get M' ["QUAD:IN20:511"] = .ok [("QUAD:IN20:511", PyVal.num (1/2))] :=
  c2_quad_set_scenario taoQ [] (by norm_num [taoQ]) rfl

/-- C6 (counterexample): the legacy `bmad_model_utils.evaluate_tao` does not
return after the re-enable directive: it goes on to retrieve output via
`get_output(tao)`, an unbound name, and raises `NameError`. -/
theorem c6_legacy_retrieves_output :
    legacyErrName (evaluate_tao_legacy taoQ []) = some (.nameError "get_output") := rfl

/-- C6 (amended): `lume_bmad.utils.evaluate_tao` first issues the
disable-recompute directive, then the given commands in their given order
(each one the engine accepts is applied), then the re-enable directive, and
returns only the engine state, retrieving no output; the legacy
`bmad_model_utils.evaluate_tao` issues the same bracket but then attempts to
retrieve output through the undefined name `get_output` and raises
`NameError` instead of returning. -/
theorem c6_bracket_amended :
    (∀ (t : Tao) (cs : List SetCmd), (∀ cc ∈ cs, t.valid cc = true) →
      evaluate_tao t cs =
        .ok (setGlobalCalc (cs.foldl Tao.applySet (setGlobalCalc t false)) true) ∧
      (setGlobalCalc (cs.foldl Tao.applySet (setGlobalCalc t false)) true).log =
        t.log ++ ["set global lattice_calc_on = F"] ++ cs.map renderCmd ++
          ["set global lattice_calc_on = T"] ∧
      (setGlobalCalc (cs.foldl Tao.applySet (setGlobalCalc t false)) true).lattice_calc_on
        = true) ∧
    (∀ (t : Tao) (cs : List String),
      evaluate_tao_legacy t cs =
        .error (.nameError "get_output",
          setGlobalCalc ((setGlobalCalc t false).runStrCmds cs) true)) := by
  constructor
  · intro t cs h
    have hval : ∀ cc ∈ cs, (setGlobalCalc t false).valid cc = true := h
    refine ⟨?_, ?_, rfl⟩
    · unfold evaluate_tao
      rw [runCmds_all_valid cs _ hval]
    · simp [setGlobalCalc, foldl_applySet_log, List.append_assoc]
  · intro t cs
    rfl

/-- C6 (witness): the bracket on the concrete engine `taoQ` with no
commands, and the legacy retrieval failure on the same input. -/
theorem c6_bracket_amended_witness :
    evaluate_tao taoQ [] = .ok (setGlobalCalc (setGlobalCalc taoQ false) true) ∧
    evaluate_tao_legacy taoQ [] =
      .error (.nameError "get_output",
        setGlobalCalc ((setGlobalCalc taoQ false).runStrCmds []) true) :=
  ⟨(c6_bracket_amended.1 taoQ [] (fun cc hcc => absurd hcc (List.not_mem_nil cc))).1,
   c6_bracket_amended.2 taoQ []⟩

/-- C7 (counterexample): the legacy `BmadModel._set` writes the given values
into the state before building any command; when the command build then
raises (here the unconditional `NameError` of `get_tao_cmds`), the state
the call leaves behind already contains the new value — partial state is
committed on failure. -/
theorem c7_legacy_commits_partial_state :
    BmadModel_set [] taoQ [] [("QUAD_IN20_511", PyVal.num (1/2))] =
      .error (.nameError "mdl_obj", [("QUAD_IN20_511", PyVal.num (1/2))]) := rfl

/-- C7 (amended): in `lume_bmad`'s `LUMEBmadModel._set` the claim holds —
an error raised while building the command batch, or an engine rejection
while executing it, escapes with the state cache exactly as it was before
the call, the cache being refreshed only after the whole batch succeeded;
the legacy `BmadModel._set`, by contrast, commits every given value to the
state before building commands, so its failures leave partial state behind. -/
theorem c7_lume_no_partial_commit :
    (∀ (M : LUMEBmadModel) (values : List (String × ℚ)) (e : BmadError),
      get_tao_commands M.tao M.control_name_to_bmad values "cu_hxr" = .error e →
      model_set M values = .error (e, M)) ∧
    (∀ (M : LUMEBmadModel) (values : List (String × ℚ)) (cmds : List SetCmd)
      (e : BmadError) (t' : Tao),
      get_tao_commands M.tao M.control_name_to_bmad values "cu_hxr" = .ok cmds →
      evaluate_tao M.tao cmds = .error (e, t') →
      model_set M values = .error (e, { M with tao := t' })) := by
  constructor
  · intro M values e h
    simp [model_set, h]
  · intro M values cmds e t' h1 h2
    simp [model_set, h1, h2]

/-- C7 (witness): a build failure (unknown control name against an empty
mapping) and an execution failure (engine rejecting the command) both
return the model with its state field untouched. -/
theorem c7_lume_no_partial_commit_witness :
    model_set modelF [("BOGUS", 1)] = .error (.lookupError "BOGUS", modelF) ∧
    model_set modelR [("QUAD:IN20:511", (1/2 : ℚ))] =
      .error (.engineError (renderCmd ⟨"Q1", "b1_gradient", (1/2 : ℚ)⟩),
        { modelR with tao := { setGlobalCalc taoR false with
            log := (setGlobalCalc taoR false).log ++
              [renderCmd ⟨"Q1", "b1_gradient", (1/2 : ℚ)⟩] } }) :=
  ⟨c7_lume_no_partial_commit.1 modelF [("BOGUS", 1)] _ rfl,
   c7_lume_no_partial_commit.2 modelR [("QUAD:IN20:511", (1/2 : ℚ))]
     [⟨"Q1", "b1_gradient", (1/2 : ℚ)⟩] _ _ (by rfl) (by rfl)⟩

/-- C8: the snapshot `reset` re-applies is the dict captured at construction
time — but because `__init__` has its `update_state()` call commented out,
that snapshot is empty.  `reset` after `set({"QUAD:IN20:511": 0.5})` re-applies
the empty snapshot through `set`, which issues no command, so a subsequent
`get` of the control name returns the post-set value `0.5`, not a
construction-time value — the construction-time snapshot holds no value for
any control name at all, contradicting the claim (and the method's own
docstring "Reset the model to its initial state"). -/
theorem c8_reset_restores_nothing :
    (model_init taoQ cmapQ).initial_state = [] ∧
    (do
      let M1 ← model_set (model_init taoQ cmapQ) [("QUAD:IN20:511", (1/2 : ℚ))]
      let M2 ← model_reset M1
      Except.ok (model_get M2 ["QUAD:IN20:511"])) =
      Except.ok (Except.ok [("QUAD:IN20:511", PyVal.num (1/2))]) :=
  ⟨rfl, by rfl⟩
